import Mathlib

/-!
# Verification of the llm-evals batch evaluation harness

Shallow embedding of the evaluation harness from `src/evals/` of the
llm-evals repository, together with proofs of the testable properties
claimed by its specification.

Modelling conventions:
* Python floats are modelled as rationals (`ℚ`); `np.std` returns the
  square root of the population variance, which is irrational in general,
  so the statistics record stores the variance (field `std2`, the square
  of `np.std`) instead.
* The thread pool of `batch_eval` (`core.py`) completes futures in a
  nondeterministic order; this order is an explicit parameter
  `order : List ℕ`, constrained in theorems to be a permutation of
  `range num_runs` (every submitted future completes exactly once).
* A trial (`eval_factory(i)` construction + `run()` + everything inside)
  is a function `trial : ℕ → Except String (ℚ × String × String)`:
  `.ok (score, model, name)` for a normal return,
  `.error msg` when an exception is raised anywhere in the trial.
* The database write `EvalResult.save()` is a function
  `save : EvalResult → Except String Unit`; the list of attempted save
  calls is returned alongside the result so persistence behaviour is
  observable.
* `print`/logging calls produce no modelled effect, except the
  low-success-rate warning of `core.py:186-192`, which is recorded as a
  Boolean field of the returned record so the warning condition can be
  stated.
-/

namespace LLMEvals

/-- `Role` from `src/evals/types.py`: `Role = Literal["user", "system", "assistant"]`. -/
inductive Role where
  | system
  | user
  | assistant
deriving DecidableEq, Repr

/-- `Message` from `src/evals/types.py`: a `TypedDict` with `role` and `content`. -/
structure Message where
  role : Role
  content : String
deriving DecidableEq, Repr

/-- The outcome of one trial of `batch_eval` (`eval_factory(i)` construction plus
`Eval.run`): either a normal return of `(score, assistant.model, eval.name)` or an
exception carrying a message. -/
abbrev TrialFn := Nat → Except String (ℚ × String × String)

/-- The quadruple returned by `run_single_eval` in `src/evals/core.py:122-134`. -/
structure SingleOutcome where
  score : ℚ
  model : String
  evalName : String
  success : Bool
deriving DecidableEq, Repr

/-- `run_single_eval` (`src/evals/core.py:122-134`): runs one trial, returning
`(score, model_name, eval_name, True)` on success and `(0.0, "", "", False)`
when any exception is raised in construction, execution or evaluation. -/
def run_single_eval (trial : TrialFn) (i : Nat) : SingleOutcome :=
  match trial i with
  | .ok (s, m, e) => ⟨s, m, e, true⟩
  | .error _ => ⟨0, "", "", false⟩

/-- The mutable collection state of the `as_completed` loop in
`src/evals/core.py:144-167`: `results`, `failed_runs`, `model_name`, `eval_name`. -/
structure Collected where
  results : List ℚ
  failed_runs : List Nat
  model_name : Option String
  eval_name : Option String
deriving DecidableEq, Repr

/-- One iteration of the `as_completed` loop (`src/evals/core.py:153-167`):
a successful outcome appends its score to `results` (recording `model_name` and
`eval_name` the first time), a failed outcome appends the run index to
`failed_runs`. -/
def collectStep (trial : TrialFn) (acc : Collected) (i : Nat) : Collected :=
  let r := run_single_eval trial i
  if r.success then
    match acc.model_name with
    | none =>
        { acc with
          results := acc.results ++ [r.score]
          model_name := some r.model
          eval_name := some r.evalName }
    | some _ => { acc with results := acc.results ++ [r.score] }
  else
    { acc with failed_runs := acc.failed_runs ++ [i] }

/-- The whole `as_completed` collection loop, folded over the order in which the
futures complete. -/
def collect (trial : TrialFn) (order : List Nat) : Collected :=
  order.foldl (collectStep trial) ⟨[], [], none, none⟩

/-- Renders a list of run indices the way Python prints a `list[int]`,
e.g. `[0, 1, 2]` (used in the zero-success error message). -/
def pyIntList (xs : List Nat) : String :=
  "[" ++ String.intercalate ", " (xs.map toString) ++ "]"

/-- The error message built in `src/evals/core.py:178-185` when no trial
succeeded. -/
def zeroSuccessMsg (num_runs : Nat) (failed_runs : List Nat) : String :=
  let fl := pyIntList failed_runs
  let m := s!"No evaluations completed successfully out of {num_runs} runs."
  let m := if failed_runs ≠ [] then m ++ s!" Failed runs: {fl}" else m
  if failed_runs.length = num_runs then m ++ " All evaluations failed." else m

/-- Insertion of a rational into a sorted list, modelling the effect of
`np.sort` (used by `np.median`): the result of sorting is the unique
nondecreasing permutation, so any sort models it. -/
def sortQ (l : List ℚ) : List ℚ := l.insertionSort (· ≤ ·)

/-- `np.min` over a nonempty array: the fold of `min` over the elements
(`0` for the empty array, which `batch_eval` never hits). -/
def npMin (l : List ℚ) : ℚ :=
  match l with
  | [] => 0
  | h :: t => t.foldl min h

/-- `np.max` over a nonempty array, analogously. -/
def npMax (l : List ℚ) : ℚ :=
  match l with
  | [] => 0
  | h :: t => t.foldl max h

/-- `np.mean`: sum divided by length. -/
def npMean (l : List ℚ) : ℚ := l.sum / l.length

/-- The square of `np.std`: the population variance
`(1/n) * Σ (x - mean)²`.  (`np.std` itself is the nonnegative square root
of this quantity, irrational in general, hence not stored directly.) -/
def npVar (l : List ℚ) : ℚ :=
  ((l.map fun x => (x - npMean l) ^ 2).sum) / l.length

/-- `np.median`: middle element of the sorted array for odd length, the mean of
the two middle elements for even length. -/
def npMedian (l : List ℚ) : ℚ :=
  let s := sortQ l
  let n := l.length
  if n = 0 then 0
  else if n % 2 = 1 then s.getD (n / 2) 0
  else (s.getD (n / 2 - 1) 0 + s.getD (n / 2) 0) / 2

/-- The `stats` dictionary built in `src/evals/core.py:199-211`.  `std2` is the
square of the `"std"` entry (see `npVar`). -/
structure Stats where
  mean : ℚ
  std2 : ℚ
  min : ℚ
  max : ℚ
  median : ℚ
  successful_runs : Nat
  failed_runs : Nat
  total_runs : Nat
  success_rate : ℚ
deriving DecidableEq, Repr

/-- Computes the `stats` dictionary from the successful scores, the number of
failed runs and the total number of runs (`src/evals/core.py:199-211`). -/
def computeStats (results : List ℚ) (failedCount num_runs : Nat) : Stats :=
  { mean := npMean results
    std2 := npVar results
    min := npMin results
    max := npMax results
    median := npMedian results
    successful_runs := results.length
    failed_runs := failedCount
    total_runs := num_runs
    success_rate := (results.length : ℚ) / num_runs }

/-- The record handed to the database layer (`EvalResult(...)` constructed in
`src/evals/core.py:234-240`). -/
structure EvalResult where
  provider : String
  model : String
  eval_name : String
  result : ℚ
  runs : Nat
deriving DecidableEq, Repr

/-- `model_name.split("/", 1)` with the `"unknown"` fallback
(`src/evals/core.py:225-232`). -/
def splitProvider (m : String) : String × String :=
  if m.contains '/' then
    let parts := m.splitOn "/"
    (parts.headD "", String.intercalate "/" parts.tail)
  else
    ("unknown", m)

/-- The dictionary returned by `batch_eval` (`src/evals/core.py:245-251`),
plus the Boolean `lowSuccessWarning` recording whether the low-success-rate
warning of lines 186-192 was printed. -/
structure BatchReturn where
  scores : List ℚ
  statistics : Stats
  model_name : Option String
  eval_name : Option String
  failed_runs : List Nat
  lowSuccessWarning : Bool
deriving DecidableEq, Repr

/-- Python truthiness of an optional string (`model_name and eval_name` on
`src/evals/core.py:224`): `None` and `""` are falsy. -/
def truthy (s : Option String) : Bool :=
  match s with
  | none => false
  | some v => v ≠ ""

/-- `batch_eval` (`src/evals/core.py:99-251`).

Inputs beyond the Python signature: `trial` gives each run's outcome
(see `TrialFn`), `save` is the behaviour of `EvalResult.save()`, and
`order` is the order in which the thread pool completes the futures.
`max_workers` and `verbose` only influence scheduling and printing and are
not modelled.

Returns the Python return value (or the raised exception) together with
the list of `EvalResult.save()` calls that were attempted. -/
def batch_eval (num_runs : Nat) (trial : TrialFn)
    (save : EvalResult → Except String Unit) (save_results : Bool)
    (order : List Nat) : Except String BatchReturn × List EvalResult :=
  let c := collect trial order
  let success_rate : ℚ := if num_runs > 0 then (c.results.length : ℚ) / num_runs else 0
  if c.results = [] then
    (.error (zeroSuccessMsg num_runs c.failed_runs), [])
  else
    let warning := decide (success_rate < 1/10) && decide (num_runs > 1)
    let stats := computeStats c.results c.failed_runs.length num_runs
    let ret : BatchReturn :=
      { scores := c.results
        statistics := stats
        model_name := c.model_name
        eval_name := c.eval_name
        failed_runs := c.failed_runs
        lowSuccessWarning := warning }
    if save_results && truthy c.model_name && truthy c.eval_name then
      let mn := c.model_name.getD ""
      let pm := splitProvider mn
      let er : EvalResult :=
        { provider := pm.1
          model := pm.2
          eval_name := c.eval_name.getD ""
          result := stats.mean
          runs := stats.successful_runs }
      match save er with
      | .ok _ => (.ok ret, [er])
      | .error e => (.error e, [er])
    else
      (.ok ret, [])

/-- Whether trial `i` succeeds (returns normally). -/
def trialOk (trial : TrialFn) (i : Nat) : Bool :=
  (run_single_eval trial i).success

/-- The scores of the successful trials among `0, …, num_runs-1`, in index
order: the canonical multiset that the statistics must be computed over. -/
def successScores (trial : TrialFn) (num_runs : Nat) : List ℚ :=
  ((List.range num_runs).filter (trialOk trial)).map
    fun i => (run_single_eval trial i).score

/-- The number of trials among `0, …, num_runs-1` that fail. -/
def failedCount (trial : TrialFn) (num_runs : Nat) : Nat :=
  ((List.range num_runs).filter fun i => !(trialOk trial i)).length

/-!
## The Eval state machine (`src/evals/core.py:60-96`)

`Eval.run` drives a turn loop between `self.user` and `self.assistant`.
Each agent is modelled by its `respond` method (which may mutate the
agent's own state, hence explicit state passing) and its `is_done`
method, read on the post-`respond` state, exactly as the mutable Python
objects behave.  The roles are the class attributes `User.role = "user"`
and `Assistant.role = "assistant"` from `core.py:28-57`.
-/

/-- One agent of the turn loop: `respond(chat_history)` (returning the updated
agent state and the response text) and `is_done()`. -/
structure AgentStep (σ : Type) where
  respond : σ → List Message → σ × String
  isDone : σ → Bool

/-- The data of one `Eval` instance that `Eval.run` consumes: the two agents
and `max_turns` (class default `10`, `core.py:64`). -/
structure EvalLoop (σu σa : Type) where
  user : AgentStep σu
  assistant : AgentStep σa
  maxTurns : Nat := 10

/-- The body of `Eval.run`'s `for i in range(self.max_turns)` loop
(`src/evals/core.py:79-84`), with explicit remaining fuel, a flag for which
agent is `current` (`true` = user), the two agent states and the chat history.
The returned Boolean records whether the loop exited early through the
`if current.is_done(): break` branch. -/
def runFrom {σu σa : Type} (L : EvalLoop σu σa) :
    Nat → Bool → σu × σa → List Message → (σu × σa) × List Message × Bool
  | 0, _, s, ch => (s, ch, false)
  | n + 1, curIsUser, (su, sa), ch =>
    if curIsUser then
      let r := L.user.respond su ch
      let ch' := ch ++ [⟨Role.user, r.2⟩]
      if L.user.isDone r.1 then ((r.1, sa), ch', true)
      else runFrom L n false (r.1, sa) ch'
    else
      let r := L.assistant.respond sa ch
      let ch' := ch ++ [⟨Role.assistant, r.2⟩]
      if L.assistant.isDone r.1 then ((su, r.1), ch', true)
      else runFrom L n true (su, r.1) ch'

/-- The turn loop of `Eval.run` (`src/evals/core.py:73-84`): the user agent
acts first (`current = self.user`), the chat history starts empty
(`Eval.__init__`, `core.py:71`). -/
def evalRun {σu σa : Type} (L : EvalLoop σu σa) (s0 : σu × σa) :
    (σu × σa) × List Message × Bool :=
  runFrom L L.maxTurns true s0 []

/-!
## The math eval (`src/evals/math.py`)

`MathUser.__init__` draws `x, y = rng.integers(low, high, size=2)` and
`operation = rng.choice(["+", "-", "*", "/"])` from the numpy generator
that `Eval.__init__` created with `np.random.default_rng(seed=rng_seed)`.
A numpy generator is a pure function of its seed, so the two draws are
modelled as functions of the seed: `integersPair seed low high` is the
first draw and `choice4 seed` the subsequent one (the statefulness of the
generator is folded into the two draw positions).
-/

/-- Deterministic semantics of the numpy generator draws made from a
generator created with a given seed (a numpy `Generator` is a pure function
of its seed, so every draw position is a function of the seed):
* `integersPair seed low high` — the initial `rng.integers(low, high, size=2)`
  of `MathUser.__init__`;
* `choice4 seed` — the following `rng.choice(["+", "-", "*", "/"])`;
* `choiceBool seed` — the initial `rng.choice([True, False])` of
  `TicTacToeEval.__init__` (`tictactoe.py:158`);
* `randMove seed k moves` — the `k`-th subsequent
  `rng.choice(game.possible_moves())` drawn by `RandomPlayer.ask_move`
  (`tictactoe.py:77-81`). -/
structure RngSemantics where
  integersPair : Nat → Nat → Nat → Nat × Nat
  choice4 : Nat → Fin 4
  choiceBool : Nat → Bool
  randMove : Nat → Nat → List Nat → Nat

/-- The operator drawn by `rng.choice(["+", "-", "*", "/"])`. -/
inductive Op where
  | plus
  | minus
  | times
  | div
deriving DecidableEq, Repr

/-- The operator at a given index of the list `["+", "-", "*", "/"]`. -/
def opOfFin : Fin 4 → Op
  | 0 => .plus
  | 1 => .minus
  | 2 => .times
  | 3 => .div

/-- The rendering of an operator inside the problem f-string. -/
def Op.str : Op → String
  | .plus => "+"
  | .minus => "-"
  | .times => "*"
  | .div => "/"

/-- The state of a `MathUser` (`src/evals/math.py:35-49`): the bounds and the
pre-generated problem, kept with its components. -/
structure MathUserS where
  low : Nat
  high : Nat
  x : Nat
  y : Nat
  op : Op
  problem : String
deriving DecidableEq, Repr

/-- `MathUser.__init__` (`src/evals/math.py:36-43`): draws the operands and the
operator and renders `self.problem = f"{x} {operation} {y}"`. -/
def mathUserInit (sem : RngSemantics) (seed : Nat) (low high : Nat) : MathUserS :=
  let xy := sem.integersPair seed low high
  let op := opOfFin (sem.choice4 seed)
  let xs := toString xy.1
  let ys := toString xy.2
  let ops := op.str
  { low := low, high := high, x := xy.1, y := xy.2, op := op
    problem := s!"{xs} {ops} {ys}" }

/-- The value of Python's `eval(user.problem)` for the rendered problem
`f"{x} {op} {y}"`: the exact arithmetic result, with `/` being true division.
(The numpy draw range `[low, high)` with `low = 100` never produces `y = 0`;
`ℚ` division by zero yields `0` where Python would raise, a case no claim
touches.) -/
def mathGtRaw (u : MathUserS) : ℚ :=
  match u.op with
  | .plus => (u.x : ℚ) + u.y
  | .minus => (u.x : ℚ) - u.y
  | .times => (u.x : ℚ) * u.y
  | .div => (u.x : ℚ) / u.y

/-- Round-half-to-even to an integer, the behaviour of Python's `round`. -/
def roundHalfEven (q : ℚ) : ℤ :=
  let f := ⌊q⌋
  let r := q - f
  if r < 1/2 then f
  else if r > 1/2 then f + 1
  else if f % 2 = 0 then f else f + 1

/-- Python's `round(q, 2)`: round to the nearest multiple of `1/100`, ties to
even. -/
def round2 (q : ℚ) : ℚ := (roundHalfEven (q * 100) : ℚ) / 100

/-!
### Python's `str.strip()` and `float()` (CPython semantics)

`MathEval.evaluate` calls `float(response.strip())`.  These are external
(CPython) semantics, modelled exactly:
* `str.strip()` removes the characters for which `str.isspace()` holds — the
  29 Unicode whitespace code points listed in `pySpaceCodes` (generated from
  CPython 3.11 / Unicode 14, which includes e.g. `\x0b`, `\x0c` and
  `\x1c`-`\x1f`).
* `float()` first transforms the string (CPython's
  `_PyUnicode_TransformDecimalAndSpaceToASCII`): Unicode whitespace becomes a
  space, any Unicode decimal digit (category `Nd`, the 66 runs of ten
  consecutive code points listed in `ndStarts`) becomes the corresponding
  ASCII digit, other non-ASCII characters make the parse fail.  The ASCII
  parse then accepts an optional sign followed by `inf`/`infinity`/`nan`
  (case-insensitive) or a decimal literal — digits with an optional point and
  an optional `e`/`E` exponent, with PEP 515 underscores allowed only between
  digits.
* Infinities and NaN are represented by the distinguished values of
  `PyFloatVal`; they compare unequal to every finite value, as in Python
  (the ground truth is always finite).
* A successfully parsed decimal literal is represented by the exact rational
  it denotes, where Python stores the nearest binary double (overflowing to
  `±inf` beyond the double range); the claims only ever compare against the
  integer ground truths `579`/`580`, which both representations hit or miss
  identically — a literal beyond the double range denotes a rational far
  larger than any ground truth, scoring `0.0` either way.
-/

/-- The 29 code points for which Python's `str.isspace()` holds (the set
`str.strip()` removes). -/
def pySpaceCodes : List Nat :=
  [0x9, 0xa, 0xb, 0xc, 0xd, 0x1c, 0x1d, 0x1e, 0x1f, 0x20, 0x85, 0xa0,
   0x1680, 0x2000, 0x2001, 0x2002, 0x2003, 0x2004, 0x2005, 0x2006, 0x2007,
   0x2008, 0x2009, 0x200a, 0x2028, 0x2029, 0x202f, 0x205f, 0x3000]

/-- Python's per-character `str.isspace()`. -/
def pyIsSpace (c : Char) : Bool := pySpaceCodes.contains c.toNat

/-- The first code points of the 66 runs of ten consecutive Unicode decimal
digits (category `Nd`, values `0..9` in order), Unicode 14. -/
def ndStarts : List Nat :=
  [48, 1632, 1776, 1984, 2406, 2534, 2662, 2790, 2918, 3046, 3174, 3302,
   3430, 3558, 3664, 3792, 3872, 4160, 4240, 6112, 6160, 6470, 6608, 6784,
   6800, 6992, 7088, 7232, 7248, 42528, 43216, 43264, 43472, 43504, 43600,
   44016, 65296, 66720, 68912, 69734, 69872, 69942, 70096, 70384, 70736,
   70864, 71248, 71360, 71472, 71904, 72016, 72784, 73040, 73120, 92768,
   92864, 93008, 120782, 120792, 120802, 120812, 120822, 123200, 123632,
   125264, 130032]

/-- The decimal-digit value of a Unicode character (category `Nd`), if any. -/
def pyCharDigit (c : Char) : Option Nat :=
  (ndStarts.find? fun s => s ≤ c.toNat && c.toNat < s + 10).map fun s => c.toNat - s

/-- Python's `str.strip()`: removes leading and trailing Unicode whitespace. -/
def pyStrip (s : String) : String :=
  ⟨(((s.data.dropWhile pyIsSpace).reverse).dropWhile pyIsSpace).reverse⟩

/-- One step of CPython's decimal-and-space-to-ASCII transform: whitespace
to a space, `Nd` digits to ASCII digits, ASCII kept, anything else a parse
failure (CPython writes a `'?'`, which no float literal may contain). -/
def pyTransformChar (c : Char) : Option Char :=
  if pyIsSpace c then some ' '
  else
    match pyCharDigit c with
    | some d => some (Char.ofNat (48 + d))
    | none => if c.toNat < 128 then some c else none

/-- CPython's `_PyUnicode_TransformDecimalAndSpaceToASCII` on a whole string. -/
def pyTransform (cs : List Char) : Option (List Char) := cs.mapM pyTransformChar

/-- The value of Python's `float()` (or `int()`): a finite rational, an
infinity, or NaN. -/
inductive PyFloatVal where
  | finite (q : ℚ)
  | inf
  | ninf
  | nan
deriving DecidableEq, Repr

/-- Negation of a parsed value (a leading `-` sign). -/
def pyNegVal : PyFloatVal → PyFloatVal
  | .finite q => .finite (-q)
  | .inf => .ninf
  | .ninf => .inf
  | .nan => .nan

/-- The tail of a PEP 515 digit group: digits, with each underscore followed
(and, by construction of the caller, preceded) by a digit.  Accumulates the
value and the number of digits read so far. -/
def parseDigitsGo (acc ndigits : Nat) : List Char → Option (Nat × Nat)
  | [] => some (acc, ndigits)
  | '_' :: c :: rest =>
    if c.isDigit then parseDigitsGo (acc * 10 + (c.toNat - 48)) (ndigits + 1) rest
    else none
  | c :: rest =>
    if c.isDigit then parseDigitsGo (acc * 10 + (c.toNat - 48)) (ndigits + 1) rest
    else none

/-- A PEP 515 digit group: nonempty, starts and ends with a digit, single
underscores only between digits.  Returns the value and the digit count. -/
def parseDigitsU : List Char → Option (Nat × Nat)
  | [] => none
  | c :: rest =>
    if c.isDigit then parseDigitsGo (c.toNat - 48) 1 rest else none

/-- The mantissa `intpart[.fracpart]` as an exact rational: at least one
digit overall, each present part a valid digit group (so underscores cannot
be adjacent to the point). -/
def parseMantissaU (cs : List Char) : Option ℚ :=
  match cs.splitOn '.' with
  | [ip] => (parseDigitsU ip).map fun p => (p.1 : ℚ)
  | [ip, fp] =>
    match ip, fp with
    | [], [] => none
    | [], _ => (parseDigitsU fp).map fun q => (q.1 : ℚ) / (10 : ℚ) ^ q.2
    | _, [] => (parseDigitsU ip).map fun p => (p.1 : ℚ)
    | _, _ =>
      match parseDigitsU ip, parseDigitsU fp with
      | some p, some q => some ((p.1 : ℚ) + (q.1 : ℚ) / (10 : ℚ) ^ q.2)
      | _, _ => none
  | _ => none

/-- A mantissa together with a (possibly signed) decimal exponent. -/
def parseExpPartU (m e : List Char) : Option ℚ :=
  match parseMantissaU m with
  | none => none
  | some q =>
    match e with
    | '+' :: ds => (parseDigitsU ds).map fun p => q * (10 : ℚ) ^ (p.1 : ℤ)
    | '-' :: ds => (parseDigitsU ds).map fun p => q * (10 : ℚ) ^ (-(p.1 : ℤ))
    | ds => (parseDigitsU ds).map fun p => q * (10 : ℚ) ^ (p.1 : ℤ)

/-- The unsigned body of a float literal: the keywords `inf`, `infinity` and
`nan` (case-insensitive), or a decimal literal with an optional `e`/`E`
exponent. -/
def pyFloatBody (cs : List Char) : Option PyFloatVal :=
  let lower := cs.map Char.toLower
  if lower = "inf".toList || lower = "infinity".toList then some .inf
  else if lower = "nan".toList then some .nan
  else
    let numeric : Option ℚ :=
      match cs.splitOn 'e' with
      | [m] =>
        match m.splitOn 'E' with
        | [m'] => parseMantissaU m'
        | [m', e] => parseExpPartU m' e
        | _ => none
      | [m, e] =>
        if m.contains 'E' || e.contains 'E' then none else parseExpPartU m e
      | _ => none
    numeric.map .finite

/-- Python's `float(s)` on an already-stripped string (see the section
comment): transform, optional sign, keyword or decimal literal.  `none` is
exactly a Python `ValueError`. -/
def pyFloat (s : String) : Option PyFloatVal :=
  match pyTransform s.toList with
  | none => none
  | some cs =>
    match cs with
    | '+' :: rest => pyFloatBody rest
    | '-' :: rest => (pyFloatBody rest).map pyNegVal
    | _ => pyFloatBody cs

/-- Python's `int(s)` on an already-stripped string: the same transform and
sign, then a plain PEP 515 digit group (no point, no exponent, no keywords). -/
def pyInt (s : String) : Option ℤ :=
  match pyTransform s.toList with
  | none => none
  | some cs =>
    match cs with
    | '+' :: rest => (parseDigitsU rest).map fun p => (p.1 : ℤ)
    | '-' :: rest => (parseDigitsU rest).map fun p => -(p.1 : ℤ)
    | _ => (parseDigitsU cs).map fun p => (p.1 : ℤ)

/-- `round(x, 2)` lifted to parsed values: infinities and NaN are fixed
points of `round` in Python. -/
def roundVal : PyFloatVal → PyFloatVal
  | .finite q => .finite (round2 q)
  | v => v

/-- `MathEval.evaluate` (`src/evals/math.py:60-77`): the ground truth is
`round(eval(problem), 2)`; the prediction is `round(float(response.strip()), 2)`
when the last message parses, `None` otherwise; the score is
`float(pred == gt)` — `None`, infinities and NaN all compare unequal to the
finite ground truth, as in Python.  Accessing `chat_history[-1]` on an empty
history raises (`IndexError`), modelled by the `.error` branch. -/
def mathEvaluate (u : MathUserS) (chat : List Message) : Except String ℚ :=
  match chat.getLast? with
  | none => .error "IndexError: list index out of range"
  | some last =>
    let gt := round2 (mathGtRaw u)
    let pred : Option PyFloatVal := (pyFloat (pyStrip last.content)).map roundVal
    .ok (if pred = some (.finite gt) then 1 else 0)

/-- The state of a `MathEval` instance after `MathEval.__init__`
(`src/evals/math.py:55-58`): the seed handed to `np.random.default_rng` by
`Eval.__init__` (`core.py:70`), the assistant's model, and the constructed
`MathUser`. -/
structure MathEvalInst where
  rngSeed : Nat
  assistantModel : String
  user : MathUserS
deriving DecidableEq, Repr

/-- `MathEval.__init__` (`src/evals/math.py:55-58`): seeds the generator with
`rng_seed`, builds the `MathAssistant` and the `MathUser` from that generator. -/
def mathEvalInit (sem : RngSemantics) (model : String) (rngSeed : Nat)
    (low high : Nat) : MathEvalInst :=
  { rngSeed := rngSeed
    assistantModel := model
    user := mathUserInit sem rngSeed low high }

/-- The few-shot `MESSAGES` preamble of the math assistant
(`src/evals/math.py:12-24`). -/
def mathMessages : List Message :=
  [⟨.system, "Answer the math problem with the numeric result only. Round to two decimal places if necessary. Do not include newlines, commas, or any other characters in your response."⟩,
   ⟨.user, "1 + 1"⟩, ⟨.assistant, "2"⟩,
   ⟨.user, "234/2"⟩, ⟨.assistant, "117"⟩,
   ⟨.user, "10/2 - 5"⟩, ⟨.assistant, "0"⟩,
   ⟨.user, "823 * 377"⟩, ⟨.assistant, "310271"⟩,
   ⟨.user, "1/3"⟩, ⟨.assistant, "0.33"⟩]

/-- A deterministic stub for the chat-completion collaborator
(`completion(model, messages)` in `src/evals/util/llm.py`): a pure function of
the model name and the message list. -/
abbrev CompletionStub := String → List Message → String

/-- The turn loop of a `MathEval` instance with the completion collaborator
replaced by a stub: the `MathUser` replies with its pre-generated problem and
is never done (`math.py:45-49`); the `MathAssistant` calls the completion on
`self.messages + chat_history` (`core.py:44-53`) and is immediately done
(`math.py:31-32`).  Neither agent carries further mutable state. -/
def mathLoop (stub : CompletionStub) (e : MathEvalInst) : EvalLoop Unit Unit :=
  { user := ⟨fun s _ => (s, e.user.problem), fun _ => false⟩
    assistant := ⟨fun s ch => (s, stub e.assistantModel (mathMessages ++ ch)), fun _ => true⟩
    maxTurns := 10 }

/-- The transcript produced by `MathEval.run` under a stubbed completion. -/
def mathTranscript (stub : CompletionStub) (e : MathEvalInst) : List Message :=
  (evalRun (mathLoop stub e) ((), ())).2.1

/-- The score returned by `MathEval.run` under a stubbed completion:
`evaluate()` on the final transcript (`core.py:86`). -/
def mathRunScore (stub : CompletionStub) (e : MathEvalInst) : Except String ℚ :=
  mathEvaluate e.user (mathTranscript stub e)

/-!
## The eval registry (`src/evals/registry.py`)

`EVALS` maps a name to `{factory, description, default_runs, default_params}`;
`create_eval_factory(name, model, **kwargs)` merges the default parameters
with the overrides and returns `seed ↦ factory(model=model, rng_seed=seed,
**params)`.  Parameter dictionaries are modelled as partial maps
`String → Option ℤ`; the registry is polymorphic in the constructed eval
type, as the Python registry is dynamically typed.
-/

/-- A `**params` dictionary. -/
abbrev Params := String → Option ℤ

/-- One entry of the `EVALS` registry (`src/evals/registry.py:29-34`). -/
structure EvalConfig (E : Type) where
  factory : String → Nat → Params → E
  description : String
  default_runs : Nat
  default_params : Params

/-- The registry: an association list of names to configurations. -/
abbrev Registry (E : Type) := List (String × EvalConfig E)

/-- `get_eval_config` (`src/evals/registry.py:42-46`): dictionary lookup,
`None` standing for the raised `ValueError` on an unknown name. -/
def get_eval_config {E : Type} (r : Registry E) (name : String) :
    Option (EvalConfig E) :=
  (r.find? fun p => p.1 = name).map (·.2)

/-- `params = {**config["default_params"], **kwargs}`
(`src/evals/registry.py:65`): overrides win over defaults. -/
def mergeParams (defaults kwargs : Params) : Params :=
  fun k => (kwargs k).orElse fun _ => defaults k

/-- `create_eval_factory` (`src/evals/registry.py:49-70`). -/
def create_eval_factory {E : Type} (r : Registry E) (name model : String)
    (kwargs : Params) : Option (Nat → E) :=
  (get_eval_config r name).map fun config =>
    fun seed => config.factory model seed (mergeParams config.default_params kwargs)

/-!
## Tic-tac-toe terminal scoring (`src/evals/tictactoe.py:175-191`)

`TicTacToeEval.evaluate` inspects the finished `easyAI` game.  The relevant
external-library semantics (`easyAI.games.TicTacToe`): `board` is a list of
nine cells holding `0` (empty), `1` (player 1) or `2` (player 2);
`opponent_index` is `2` when `current_player == 1` and `1` otherwise;
`switch_player()` sets `current_player = opponent_index`; `lose()` is true
when the opponent holds one of the eight three-in-a-row lines.  The `players`
list is modelled by the Boolean per-slot flag `playerIsLLM` (`True` ⟺ the
Python slot holds `None`, i.e. the LLM-controlled player,
`tictactoe.py:159-166`). -/

/-- The winning lines of `easyAI`'s `TicTacToe.lose`, in board positions 1-9. -/
def tttLines : List (List Nat) :=
  [[1, 2, 3], [4, 5, 6], [7, 8, 9],
   [1, 4, 7], [2, 5, 8], [3, 6, 9],
   [1, 5, 9], [3, 5, 7]]

/-- The game state that `evaluate` reads. -/
structure TTTGame where
  board : List Nat
  current_player : Nat
  playerIsLLM : List Bool
deriving DecidableEq, Repr

/-- `opponent_index`: the index of the player who is not `current_player`. -/
def TTTGame.opponentIndex (g : TTTGame) : Nat :=
  if g.current_player = 1 then 2 else 1

/-- `switch_player()`. -/
def TTTGame.switchPlayer (g : TTTGame) : TTTGame :=
  { g with current_player := g.opponentIndex }

/-- Whether player `p` holds a complete line on `board`. -/
def threeInRow (board : List Nat) (p : Nat) : Bool :=
  tttLines.any fun line => line.all fun c => board.getD (c - 1) 0 = p

/-- `lose()`: has the opponent three in a row? -/
def TTTGame.lose (g : TTTGame) : Bool :=
  threeInRow g.board g.opponentIndex

/-- `TicTacToeEval.evaluate` (`src/evals/tictactoe.py:175-191`).  `winner` is
`None` or the winning player's index (always `1` or `2`, so Python's falsy
test `if not winner` is the `None` test); the score is `1.0` when the winning
slot of `players` holds `None` (the LLM), `0.0` when it holds the opponent,
and `0.5` on a draw. -/
def tttEvaluate (g : TTTGame) : ℚ :=
  let winner : Option Nat :=
    if g.lose then some g.opponentIndex
    else
      let g2 := g.switchPlayer
      if g2.lose then some g2.opponentIndex else none
  match winner with
  | none => 1/2
  | some w => if g.playerIsLLM.getD (w - 1) false then 1 else 0

/-- The mark (player index) of the LLM-controlled player: the slot of
`players` holding `None`. -/
def TTTGame.llmMark (g : TTTGame) : Nat :=
  if g.playerIsLLM.getD 0 false then 1 else 2

/-- The mark of the scripted opponent. -/
def TTTGame.oppMark (g : TTTGame) : Nat := 3 - g.llmMark

/-- A full board: no cell is empty (`possible_moves() == []`). -/
def TTTGame.boardFull (g : TTTGame) : Bool :=
  g.board.all fun c => c ≠ 0

/-!
## The tic-tac-toe eval instance and the full registry (`src/evals/tictactoe.py`)

The remaining `easyAI` game operations consumed by a run:
`possible_moves()` is the 1-based positions of the empty cells,
`play_move(m)` writes `current_player` into cell `m-1` and switches players,
`is_over()` is `possible_moves() == [] or lose()`, and `str(game)` renders
the board (`TicTacToe.__str__`, `src/evals/tictactoe.py:61-73`).
`AI_Player(Negamax(6))` is a deterministic function of the game state; it is
kept as an explicit parameter `nega` (the determinism claim needs no more). -/

/-- `possible_moves()`: 1-based positions of the empty cells. -/
def possibleMoves (g : TTTGame) : List Nat :=
  ((List.range g.board.length).filter fun i => g.board.getD i 0 = 0).map (· + 1)

/-- `play_move(m)`: `make_move` (write `current_player` into cell `m-1`) then
`switch_player()`. -/
def playMove (g : TTTGame) (m : Nat) : TTTGame :=
  { g with board := g.board.set (m - 1) g.current_player
           current_player := g.opponentIndex }

/-- `is_over()`: no moves left, or somebody has three in a row. -/
def TTTGame.isOver (g : TTTGame) : Bool :=
  (possibleMoves g).isEmpty || g.lose

/-- The board symbol of a cell value: `[".", "O", "X"][v]`. -/
def tttCellSym (v : Nat) : String :=
  if v = 1 then "O" else if v = 2 then "X" else "."

/-- One rendered board row (`" ".join(...)`). -/
def tttRowStr (g : TTTGame) (j : Nat) : String :=
  String.intercalate " " ((List.range 3).map fun i => tttCellSym (g.board.getD (3 * j + i) 0))

/-- `str(game)` (`TicTacToe.__str__`, `src/evals/tictactoe.py:61-73`). -/
def tttRender (g : TTTGame) : String :=
  let boardStr := String.intercalate "\n" ((List.range 3).map (tttRowStr g))
  let cur := if g.current_player = 1 then "O" else "X"
  "Game Board:\n" ++ boardStr ++ "\n'" ++ cur ++ "' to play:"

/-- The opponent kinds of `TicTacToeEval` (`OpponentType`,
`src/evals/tictactoe.py:135`). -/
inductive OpponentType where
  | random
  | perfect
deriving DecidableEq, Repr

/-- The opponent name as it appears in `f"tictactoe_{opponent}"`. -/
def OpponentType.str : OpponentType → String
  | .random => "random"
  | .perfect => "perfect"

/-- The few-shot `MESSAGES` preamble of the tic-tac-toe assistant
(`src/evals/tictactoe.py:18-58`). -/
def tttMessages : List Message :=
  [⟨.system, "You are an expert TicTacToe player, and always make the perfect move. Either 'X' or 'O' may go first.\n\nRespond only with a number between 1 and 9, where 1 is the top-left corner and 9 is the bottom-right corner. The game board positions are numbered as follows:\n\n1 2 3\n4 5 6\n7 8 9\n\nRespond ONLY with a number between 1 and 9. Do not respond with any new lines or other text."⟩,
   ⟨.user, "Game Board:\n. . .\n. . .\n. . .\n'X' to play"⟩,
   ⟨.assistant, "1"⟩,
   ⟨.user, "Game Board:\nX . .\n. . .\n. . .\n'O' to play"⟩,
   ⟨.assistant, "5"⟩,
   ⟨.user, "Game Board:\nO X O\n. X .\n. . O\n'X' to play"⟩,
   ⟨.assistant, "8"⟩]

/-- The state of a `TicTacToeEval` instance after `__init__`
(`src/evals/tictactoe.py:141-173`): generator seed, model, the
per-opponent name, who goes first, and the initial game.  `playerIsLLM`
encodes the `players` list: `[None, opp]` when the LLM goes first (LLM is
player 1), `[opp, None]` otherwise. -/
structure TTTEvalInst where
  rngSeed : Nat
  assistantModel : String
  name : String
  opponent : OpponentType
  llmGoesFirst : Bool
  game : TTTGame
deriving DecidableEq, Repr

/-- `TicTacToeEval.__init__` (`src/evals/tictactoe.py:141-173`): seeds the
generator with `rng_seed` (`Eval.__init__`, `core.py:70`), draws
`llm_goes_first = rng.choice([True, False])`, arranges the players and
builds the empty board with player 1 to move. -/
def tttEvalInit (sem : RngSemantics) (model : String) (rngSeed : Nat)
    (opponent : OpponentType) : TTTEvalInst :=
  let llmFirst := sem.choiceBool rngSeed
  { rngSeed := rngSeed
    assistantModel := model
    name := "tictactoe_" ++ opponent.str
    opponent := opponent
    llmGoesFirst := llmFirst
    game := { board := List.replicate 9 0
              current_player := 1
              playerIsLLM := if llmFirst then [true, false] else [false, true] } }

/-- The running state of one tic-tac-toe trial: the shared game and the
number of `rng.choice(possible_moves)` draws made so far by a random
opponent. -/
structure TTTRunState where
  game : TTTGame
  draws : Nat

/-- An agent of the `Eval.run` loop acting on the eval instance's shared
state (both tic-tac-toe players mutate the one `game` object); `respond` may
raise (`InvalidResponseException`). -/
structure SharedAgent (σ : Type) where
  respond : σ → List Message → Except String (σ × String)
  isDone : σ → Bool

/-- The `Eval.run` loop of `src/evals/core.py:73-84` — the same loop as
`runFrom`, stated for agents over the shared state, with a raised exception
propagating out of the loop (to be caught by `run_single_eval`). -/
def runSharedFrom {σ : Type} (user asst : SharedAgent σ) :
    Nat → Bool → σ → List Message → Except String (σ × List Message × Bool)
  | 0, _, s, ch => .ok (s, ch, false)
  | n + 1, curIsUser, s, ch =>
    if curIsUser then
      match user.respond s ch with
      | .error e => .error e
      | .ok (s', resp) =>
        let ch' := ch ++ [⟨Role.user, resp⟩]
        if user.isDone s' then .ok (s', ch', true)
        else runSharedFrom user asst n false s' ch'
    else
      match asst.respond s ch with
      | .error e => .error e
      | .ok (s', resp) =>
        let ch' := ch ++ [⟨Role.assistant, resp⟩]
        if asst.isDone s' then .ok (s', ch', true)
        else runSharedFrom user asst n true s' ch'

/-- The shared-state `Eval.run` loop from the start: user first, empty
history, `max_turns` fuel. -/
def runShared {σ : Type} (user asst : SharedAgent σ) (maxTurns : Nat) (s0 : σ) :
    Except String (σ × List Message × Bool) :=
  runSharedFrom user asst maxTurns true s0 []

/-- One opponent move (`TicTacToeOpponentPlayer.make_move`, non-first-turn
path, `src/evals/tictactoe.py:125-129`): `game.get_move()` asks the current
player — the random opponent draws `rng.choice(possible_moves)`, the perfect
one runs Negamax — then `play_move`, then `str(game)` is returned. -/
def tttOpponentMove (sem : RngSemantics) (nega : TTTGame → Nat) (e : TTTEvalInst)
    (st : TTTRunState) : TTTRunState × String :=
  let m := match e.opponent with
    | .random => sem.randMove e.rngSeed st.draws (possibleMoves st.game)
    | .perfect => nega st.game
  let g' := playMove st.game m
  ({ game := g'
     draws := st.draws + (match e.opponent with | .random => 1 | .perfect => 0) },
   tttRender g')

/-- Modelled from the spec: the `OpponentPlayer` base class is imported by
`src/evals/tictactoe.py` from `evals.core` but absent from
`src/evals/core.py`; per §4.1 of the specification its `respond` delegates to
the task's `make_move` ("computes or requests a move, mutates state, and
returns a textual rendering of the new state").  The `make_move` and
`is_done` bodies themselves are `TicTacToeOpponentPlayer`
(`src/evals/tictactoe.py:107-132`): on the very first turn with the LLM
going first, only the empty board is rendered; otherwise the opponent moves
first and renders the result. -/
def tttUserAgent (sem : RngSemantics) (nega : TTTGame → Nat) (e : TTTEvalInst) :
    SharedAgent TTTRunState :=
  { respond := fun st ch =>
      if ch = [] then
        if e.llmGoesFirst then .ok (st, tttRender st.game)
        else .ok (tttOpponentMove sem nega e st)
      else .ok (tttOpponentMove sem nega e st)
    isDone := fun st => st.game.isOver }

/-- Modelled from the spec: the `LLMPlayer` base class is imported by
`src/evals/tictactoe.py` from `evals.core` but absent from
`src/evals/core.py`; per §4.1 its `respond` invokes the completion
collaborator on the fixed preamble plus the transcript and returns the raw
text.  The validation is `TicTacToeLLMPlayer.process_completion`
(`src/evals/tictactoe.py:92-104`): `int(response.strip())`, raising
`InvalidResponseException` on a non-integer or a move not in
`possible_moves()`, else `play_move`. -/
def tttAsstAgent (stub : CompletionStub) (e : TTTEvalInst) :
    SharedAgent TTTRunState :=
  { respond := fun st ch =>
      let resp := stub e.assistantModel (tttMessages ++ ch)
      match pyInt (pyStrip resp) with
      | none => .error ("Invalid move: " ++ resp)
      | some m =>
        if (possibleMoves st.game).any fun k => (k : ℤ) = m then
          .ok ({ st with game := playMove st.game m.toNat }, resp)
        else .error ("Invalid move: " ++ toString m)
    isDone := fun st => st.game.isOver }

/-- `TicTacToeEval.run` with a stubbed completion: the `Eval.run` loop over
the shared game (`max_turns = 10`, the `Eval` class default), then
`evaluate()` on the final game. -/
def tttRun (sem : RngSemantics) (nega : TTTGame → Nat) (stub : CompletionStub)
    (e : TTTEvalInst) : Except String (List Message × ℚ) :=
  match runShared (tttUserAgent sem nega e) (tttAsstAgent stub e) 10 ⟨e.game, 0⟩ with
  | .error err => .error err
  | .ok (st, ch, _) => .ok (ch, tttEvaluate st.game)

/-- An instance constructed by any of the three registered factories. -/
inductive EvalInst where
  | math (e : MathEvalInst)
  | ttt (e : TTTEvalInst)
deriving DecidableEq, Repr

/-- The seed of the instance's generator (`Eval.__init__`, `core.py:70`). -/
def EvalInst.rngSeed : EvalInst → Nat
  | .math e => e.rngSeed
  | .ttt e => e.rngSeed

/-- `Eval.run` of an instance with the completion collaborator replaced by a
stub: the final transcript and score (or the propagated exception). -/
def runEval (sem : RngSemantics) (nega : TTTGame → Nat) (stub : CompletionStub) :
    EvalInst → Except String (List Message × ℚ)
  | .math e =>
    match mathRunScore stub e with
    | .error err => .error err
    | .ok q => .ok (mathTranscript stub e, q)
  | .ttt e => tttRun sem nega stub e

/-- The `EVALS` registry as populated by importing `src/evals/math.py`
(`math.py:93-100`) and `src/evals/tictactoe.py` (`tictactoe.py:204-216`):
the math eval with defaults `low=100, high=1000` and 50 runs, and the two
tic-tac-toe evals whose factory lambdas ignore extra kwargs. -/
def fullRegistry (sem : RngSemantics) : Registry EvalInst :=
  [("math",
    { factory := fun model seed params =>
        .math (mathEvalInit sem model seed
          ((params "low").getD 100).toNat ((params "high").getD 1000).toNat)
      description := "Basic arithmetic problems with random integers"
      default_runs := 50
      default_params := fun k =>
        if k = "low" then some 100 else if k = "high" then some 1000 else none }),
   ("tictactoe_random",
    { factory := fun model seed _ => .ttt (tttEvalInit sem model seed .random)
      description := "Tic-tac-toe against a random opponent"
      default_runs := 10
      default_params := fun _ => none }),
   ("tictactoe_perfect",
    { factory := fun model seed _ => .ttt (tttEvalInit sem model seed .perfect)
      description := "Tic-tac-toe against a perfect AI opponent"
      default_runs := 10
      default_params := fun _ => none })]

/-- Determinism of one registered eval: two `create_eval_factory` invocations
with the same name, model and overrides yield factories that agree, at any
seed, on the constructed instance; that instance's generator is seeded purely
from the trial index; and its run under a fixed deterministic completion stub
(and deterministic opponent semantics) yields identical transcripts and
scores. -/
def FactoryDeterministic (sem : RngSemantics) (nega : TTTGame → Nat)
    (stub : CompletionStub) (name model : String) (kwargs : Params)
    (seed : Nat) : Prop :=
  ∃ g1 g2 : Nat → EvalInst,
    create_eval_factory (fullRegistry sem) name model kwargs = some g1 ∧
    create_eval_factory (fullRegistry sem) name model kwargs = some g2 ∧
    g1 seed = g2 seed ∧
    (g1 seed).rngSeed = seed ∧
    runEval sem nega stub (g1 seed) = runEval sem nega stub (g2 seed)

/-!
## Concrete fixtures used by witnesses and counterexamples
-/

/-- A trial function on which every run raises. -/
def trialAllFail : TrialFn := fun _ => .error "connection error"

/-- A save stub that always succeeds. -/
def saveOk : EvalResult → Except String Unit := fun _ => .ok ()

/-- A save stub that always raises. -/
def saveBoom : EvalResult → Except String Unit := fun _ => .error "database unavailable"

/-- A trial function whose run 0 succeeds and all others raise. -/
def trialOne : TrialFn := fun i =>
  if i = 0 then .ok (1, "openai/gpt-4.1-nano", "math_eval") else .error "connection error"

/-- A trial function with successes at runs 0 and 2 and a failure at run 1. -/
def trialTwoOfThree : TrialFn := fun i =>
  if i = 0 then .ok (1, "openai/gpt-4.1-nano", "math_eval")
  else if i = 1 then .error "rate limit"
  else .ok (1/2, "openai/gpt-4.1-nano", "math_eval")

/-- The alternating role sequence of `n` turns starting with the given agent
(`true` = the user agent). -/
def altRoles : Bool → Nat → List Role
  | _, 0 => []
  | b, n + 1 => (if b then Role.user else Role.assistant) :: altRoles (!b) n

/-- A loop whose agents are never done: used to witness the no-early-exit
hypothesis of the alternation claim. -/
def chattyLoop : EvalLoop Unit Unit :=
  { user := ⟨fun s _ => (s, "ping"), fun _ => false⟩
    assistant := ⟨fun s _ => (s, "pong"), fun _ => false⟩
    maxTurns := 10 }

/-- A generator semantics that always draws `(123, 456)` and index `0`
(the `+` operator): used to witness the reproducible-math-task claim. -/
def constSem : RngSemantics :=
  { integersPair := fun _ _ _ => (123, 456)
    choice4 := fun _ => 0
    choiceBool := fun _ => true
    randMove := fun _ _ moves => moves.headD 1 }

/-- A finished game used as the C9 witness: the LLM is player 1 (`X`) and
holds the top row; the opponent is player 2. -/
def wonGame : TTTGame :=
  { board := [1, 1, 1, 2, 2, 0, 0, 0, 0]
    current_player := 1
    playerIsLLM := [true, false] }

/-!
## Lemmas about the collection loop

The `as_completed` loop is a fold over the completion order; its result is
characterised below, and every statistic is shown to depend only on the
multiset of trial outcomes, not on the completion order.
-/

/-- Collecting one more completed future is one `collectStep`. -/
theorem collect_concat (trial : TrialFn) (order : List Nat) (i : Nat) :
    collect trial (order ++ [i]) = collectStep trial (collect trial order) i := by
  simp [collect, List.foldl_append]

/-- Closed form of the collection loop: the successful scores in completion
order, the failed indices in completion order, and the model/eval names of the
first completed success. -/
theorem collect_eq (trial : TrialFn) (order : List Nat) :
    collect trial order =
      { results := (order.filter (trialOk trial)).map fun i => (run_single_eval trial i).score
        failed_runs := order.filter fun i => !(trialOk trial i)
        model_name := (order.find? (trialOk trial)).map
          fun i => (run_single_eval trial i).model
        eval_name := (order.find? (trialOk trial)).map
          fun i => (run_single_eval trial i).evalName } := by
  induction order using List.reverseRecOn with
  | nil => rfl
  | append_singleton order i ih =>
    rw [collect_concat, ih]
    rcases hok : trialOk trial i with _ | _ <;>
      rcases hf : order.find? (trialOk trial) with _ | j <;>
        simp only [collectStep, trialOk] at hok ⊢ <;>
          simp [List.filter_append, List.find?_append, trialOk, hok, hf]

/-- The multiset of collected scores does not depend on the completion order:
for any completion order of the `num_runs` futures, the `results` list is a
permutation of the successful scores taken in index order. -/
theorem collect_results_perm (trial : TrialFn) {order : List Nat} {n : Nat}
    (h : order.Perm (List.range n)) :
    (collect trial order).results.Perm (successScores trial n) := by
  rw [collect_eq]
  exact (h.filter (trialOk trial)).map _

/-- The number of collected failures equals the number of failing indices,
for any completion order. -/
theorem collect_failed_length (trial : TrialFn) {order : List Nat} {n : Nat}
    (h : order.Perm (List.range n)) :
    (collect trial order).failed_runs.length = failedCount trial n := by
  rw [collect_eq]
  exact (h.filter fun i => !(trialOk trial i)).length_eq

/-- Successes and failures partition the batch. -/
theorem successScores_length_add (trial : TrialFn) (n : Nat) :
    (successScores trial n).length + failedCount trial n = n := by
  simp only [successScores, failedCount, List.length_map]
  have h := List.length_eq_countP_add_countP (p := trialOk trial) (l := List.range n)
  simp only [List.countP_eq_length_filter] at h
  simpa [List.length_range] using h.symm

/-- `npMin` evaluates to a member of its (nonempty) argument. -/
theorem foldl_min_mem (t : List ℚ) : ∀ a : ℚ, t.foldl min a ∈ a :: t := by
  induction t with
  | nil => intro a; simp
  | cons b t ih =>
    intro a
    rw [List.foldl_cons]
    rcases List.mem_cons.mp (ih (min a b)) with h | h
    · rw [h]
      rcases min_choice a b with h' | h' <;> simp [h']
    · simp [List.mem_cons, h]

/-- `npMin` is a lower bound of its argument (with its seed element). -/
theorem foldl_min_le (t : List ℚ) : ∀ a x : ℚ, x ∈ a :: t → t.foldl min a ≤ x := by
  induction t with
  | nil =>
    intro a x hx
    simp only [List.mem_singleton] at hx
    simp [hx]
  | cons b t ih =>
    intro a x hx
    rw [List.foldl_cons]
    rcases List.mem_cons.mp hx with h | hx'
    · rw [h]
      exact le_trans (ih (min a b) (min a b) (List.mem_cons_self _ _)) (min_le_left a b)
    · rcases List.mem_cons.mp hx' with h | hx''
      · rw [h]
        exact le_trans (ih (min a b) (min a b) (List.mem_cons_self _ _)) (min_le_right a b)
      · exact ih (min a b) x (List.mem_cons_of_mem _ hx'')

/-- `npMax` evaluates to a member of its (nonempty) argument. -/
theorem foldl_max_mem (t : List ℚ) : ∀ a : ℚ, t.foldl max a ∈ a :: t := by
  induction t with
  | nil => intro a; simp
  | cons b t ih =>
    intro a
    rw [List.foldl_cons]
    rcases List.mem_cons.mp (ih (max a b)) with h | h
    · rw [h]
      rcases max_choice a b with h' | h' <;> simp [h']
    · simp [List.mem_cons, h]

/-- `npMax` is an upper bound of its argument (with its seed element). -/
theorem le_foldl_max (t : List ℚ) : ∀ a x : ℚ, x ∈ a :: t → x ≤ t.foldl max a := by
  induction t with
  | nil =>
    intro a x hx
    simp only [List.mem_singleton] at hx
    simp [hx]
  | cons b t ih =>
    intro a x hx
    rw [List.foldl_cons]
    rcases List.mem_cons.mp hx with h | hx'
    · rw [h]
      exact le_trans (le_max_left a b) (ih (max a b) (max a b) (List.mem_cons_self _ _))
    · rcases List.mem_cons.mp hx' with h | hx''
      · rw [h]
        exact le_trans (le_max_right a b) (ih (max a b) (max a b) (List.mem_cons_self _ _))
      · exact ih (max a b) x (List.mem_cons_of_mem _ hx'')

/-- Membership form of `npMin` for nonempty lists. -/
theorem npMin_mem {l : List ℚ} (h : l ≠ []) : npMin l ∈ l := by
  cases l with
  | nil => exact absurd rfl h
  | cons a t => exact foldl_min_mem t a

/-- Lower-bound form of `npMin`. -/
theorem npMin_le {l : List ℚ} {x : ℚ} (hx : x ∈ l) : npMin l ≤ x := by
  cases l with
  | nil => simp at hx
  | cons a t => exact foldl_min_le t a x hx

/-- `npMin` depends only on the multiset of elements. -/
theorem npMin_perm {l l' : List ℚ} (h : l.Perm l') : npMin l = npMin l' := by
  rcases eq_or_ne l [] with rfl | hl
  · rw [h.symm.eq_nil]
  · have hl' : l' ≠ [] := by
      intro hn
      subst hn
      exact hl h.eq_nil
    exact le_antisymm (npMin_le (h.symm.subset (npMin_mem hl')))
      (npMin_le (h.subset (npMin_mem hl)))

/-- Membership form of `npMax` for nonempty lists. -/
theorem npMax_mem {l : List ℚ} (h : l ≠ []) : npMax l ∈ l := by
  cases l with
  | nil => exact absurd rfl h
  | cons a t => exact foldl_max_mem t a

/-- Upper-bound form of `npMax`. -/
theorem le_npMax {l : List ℚ} {x : ℚ} (hx : x ∈ l) : x ≤ npMax l := by
  cases l with
  | nil => simp at hx
  | cons a t => exact le_foldl_max t a x hx

/-- `npMax` depends only on the multiset of elements. -/
theorem npMax_perm {l l' : List ℚ} (h : l.Perm l') : npMax l = npMax l' := by
  rcases eq_or_ne l [] with rfl | hl
  · rw [h.symm.eq_nil]
  · have hl' : l' ≠ [] := by
      intro hn
      subst hn
      exact hl h.eq_nil
    exact le_antisymm (le_npMax (h.subset (npMax_mem hl)))
      (le_npMax (h.symm.subset (npMax_mem hl')))

/-- Sorting is a function of the multiset of elements. -/
theorem sortQ_perm {l l' : List ℚ} (h : l.Perm l') : sortQ l = sortQ l' := by
  exact List.eq_of_perm_of_sorted
    (((List.perm_insertionSort _ l).trans h).trans (List.perm_insertionSort _ l').symm)
    (List.sorted_insertionSort _ l) (List.sorted_insertionSort _ l')

/-- `npMedian` depends only on the multiset of elements. -/
theorem npMedian_perm {l l' : List ℚ} (h : l.Perm l') : npMedian l = npMedian l' := by
  simp only [npMedian, sortQ_perm h, h.length_eq]

/-- `npMean` depends only on the multiset of elements. -/
theorem npMean_perm {l l' : List ℚ} (h : l.Perm l') : npMean l = npMean l' := by
  simp only [npMean, h.sum_eq, h.length_eq]

/-- `npVar` depends only on the multiset of elements. -/
theorem npVar_perm {l l' : List ℚ} (h : l.Perm l') : npVar l = npVar l' := by
  have hm := npMean_perm h
  simp only [npVar, hm, h.length_eq, (h.map fun x => (x - npMean l') ^ 2).sum_eq]

/-- The whole statistics record depends only on the multiset of scores. -/
theorem computeStats_perm {l l' : List ℚ} (h : l.Perm l') (f n : Nat) :
    computeStats l f n = computeStats l' f n := by
  simp only [computeStats, npMean_perm h, npVar_perm h, npMin_perm h, npMax_perm h,
    npMedian_perm h, h.length_eq]

/-- When at least one trial succeeded and `EvalResult.save` does not raise,
`batch_eval` returns the assembled result dictionary (whether or not a save
was requested or performed). -/
theorem batch_eval_ok (num_runs : Nat) (trial : TrialFn)
    (save : EvalResult → Except String Unit) (save_results : Bool)
    (order : List Nat) (hsave : ∀ r, save r = .ok ())
    (hne : (collect trial order).results ≠ []) :
    (batch_eval num_runs trial save save_results order).1 =
      .ok { scores := (collect trial order).results
            statistics := computeStats (collect trial order).results
              (collect trial order).failed_runs.length num_runs
            model_name := (collect trial order).model_name
            eval_name := (collect trial order).eval_name
            failed_runs := (collect trial order).failed_runs
            lowSuccessWarning :=
              decide ((if num_runs > 0 then
                  ((collect trial order).results.length : ℚ) / num_runs else 0) < 1/10)
                && decide (num_runs > 1) } := by
  simp only [batch_eval]
  rw [if_neg hne]
  split
  · rw [hsave]
  · rfl

/-!
## The claims
-/

/-- C1 (as stated, counterexample): the claim quantifies over every failure
count `K`, but in the batch of one trial whose single trial raises
(`N = K = 1`), `batch_eval` does not complete: it raises `ValueError` (here
the `.error` return), so no statistics reporting `successful_runs = N − K = 0`
are returned. -/
theorem c1_per_trial_isolation_counterexample :
    batch_eval 1 trialAllFail saveOk true [0] =
      (.error "No evaluations completed successfully out of 1 runs. Failed runs: [0] All evaluations failed.", []) := by
  rfl

/-- C1 (amended): per-trial isolation of `batch_eval` — for every batch of
`num_runs = N` trials in which exactly `K` trials raise anywhere in
construction, execution or evaluation, *provided at least one trial succeeds*
(`K < N`), `batch_eval` completes without aborting, the returned statistics
report `successful_runs = N − K`, and the returned `failed_runs` list has
length `K` — regardless of which trial indices fail and in which order the
futures complete. -/
theorem batch_eval_per_trial_isolation (num_runs : Nat) (trial : TrialFn)
    (save : EvalResult → Except String Unit) (save_results : Bool) (order : List Nat)
    (hperm : order.Perm (List.range num_runs))
    (hsave : ∀ r, save r = .ok ())
    (hK : failedCount trial num_runs < num_runs) :
    ∃ ret : BatchReturn,
      (batch_eval num_runs trial save save_results order).1 = .ok ret ∧
      ret.statistics.successful_runs = num_runs - failedCount trial num_runs ∧
      ret.failed_runs.length = failedCount trial num_runs := by
  have hadd := successScores_length_add trial num_runs
  have hresperm := collect_results_perm trial hperm
  have hslen : (successScores trial num_runs).length =
      num_runs - failedCount trial num_runs := by omega
  have hne : (collect trial order).results ≠ [] := by
    intro h0
    have h1 := hresperm.length_eq
    rw [h0] at h1
    simp only [List.length_nil] at h1
    omega
  refine ⟨_, batch_eval_ok num_runs trial save save_results order hsave hne, ?_, ?_⟩
  · simp only [computeStats]
    rw [hresperm.length_eq, hslen]
  · exact collect_failed_length trial hperm

/-- C1 witness: a batch of two trials of which exactly one fails, collected
out of submission order. -/
theorem batch_eval_per_trial_isolation_witness :
    failedCount trialOne 2 < 2 ∧
    ∃ ret : BatchReturn,
      (batch_eval 2 trialOne saveOk true [1, 0]).1 = .ok ret ∧
      ret.statistics.successful_runs = 2 - failedCount trialOne 2 ∧
      ret.failed_runs.length = failedCount trialOne 2 :=
  ⟨by decide,
   batch_eval_per_trial_isolation 2 trialOne saveOk true [1, 0]
     (by decide) (fun _ => rfl) (by decide)⟩

/-- C2: zero-success hard failure — when every one of the `num_runs ≥ 1`
trials fails, `batch_eval` raises the `ValueError` whose message lists the
failed trial indices (`zeroSuccessMsg` appends `Failed runs: [...]`), no
statistics record is built, and no `EvalResult` save is attempted (the
attempted-save list is empty), whatever `save` and `save_results` are. -/
theorem batch_eval_zero_success_fails (num_runs : Nat) (trial : TrialFn)
    (save : EvalResult → Except String Unit) (save_results : Bool) (order : List Nat)
    (hperm : order.Perm (List.range num_runs))
    (hN : 1 ≤ num_runs)
    (hfail : ∀ i, i < num_runs → trialOk trial i = false) :
    batch_eval num_runs trial save save_results order =
      (.error (zeroSuccessMsg num_runs order), []) := by
  have hfilter : order.filter (trialOk trial) = [] := by
    rw [List.filter_eq_nil_iff]
    intro i hi
    have : i < num_runs := by
      have := (hperm.mem_iff).mp hi
      simpa [List.mem_range] using this
    simp [hfail i this]
  have hall : order.filter (fun i => !(trialOk trial i)) = order := by
    rw [List.filter_eq_self]
    intro i hi
    have : i < num_runs := by
      have := (hperm.mem_iff).mp hi
      simpa [List.mem_range] using this
    simp [hfail i this]
  have hres : (collect trial order).results = [] := by
    rw [collect_eq]
    simp [hfilter]
  have hfr : (collect trial order).failed_runs = order := by
    rw [collect_eq]
    simpa using hall
  simp only [batch_eval]
  rw [if_pos hres, hfr]

/-- C2 witness: a batch of two trials that both fail, collected out of
submission order. -/
theorem batch_eval_zero_success_fails_witness :
    (1 ≤ 2) ∧
    batch_eval 2 trialAllFail saveOk true [1, 0] =
      (.error (zeroSuccessMsg 2 [1, 0]), []) :=
  ⟨by decide,
   batch_eval_zero_success_fails 2 trialAllFail saveOk true [1, 0]
     (by decide) (by decide) (by decide)⟩

/-- C3: aggregate correctness — for every batch with at least one successful
trial, the returned `scores` list is a permutation of exactly the successful
trials' scores (taken in index order: scores of failed trials, which
`run_single_eval` reports as `0.0` with `success=False`, are never included),
and the reported mean is the arithmetic mean of exactly those scores. -/
theorem batch_eval_aggregate_mean (num_runs : Nat) (trial : TrialFn)
    (save : EvalResult → Except String Unit) (save_results : Bool) (order : List Nat)
    (hperm : order.Perm (List.range num_runs))
    (hsave : ∀ r, save r = .ok ())
    (hK : failedCount trial num_runs < num_runs) :
    ∃ ret : BatchReturn,
      (batch_eval num_runs trial save save_results order).1 = .ok ret ∧
      ret.scores.Perm (successScores trial num_runs) ∧
      ret.statistics.mean =
        (successScores trial num_runs).sum / (successScores trial num_runs).length := by
  have hadd := successScores_length_add trial num_runs
  have hresperm := collect_results_perm trial hperm
  have hne : (collect trial order).results ≠ [] := by
    intro h0
    have h1 := hresperm.length_eq
    rw [h0] at h1
    simp only [List.length_nil] at h1
    omega
  refine ⟨_, batch_eval_ok num_runs trial save save_results order hsave hne,
    hresperm, ?_⟩
  simp only [computeStats, npMean]
  rw [hresperm.sum_eq, hresperm.length_eq]

/-- C3 witness: a batch of three trials with successes at indices 0 and 2
(scores 1 and 1/2), collected out of submission order. -/
theorem batch_eval_aggregate_mean_witness :
    failedCount trialTwoOfThree 3 < 3 ∧
    ∃ ret : BatchReturn,
      (batch_eval 3 trialTwoOfThree saveOk true [2, 0, 1]).1 = .ok ret ∧
      ret.scores.Perm (successScores trialTwoOfThree 3) ∧
      ret.statistics.mean =
        (successScores trialTwoOfThree 3).sum / (successScores trialTwoOfThree 3).length :=
  ⟨by decide,
   batch_eval_aggregate_mean 3 trialTwoOfThree saveOk true [2, 0, 1]
     (by decide) (fun _ => rfl) (by decide)⟩

/-- C4 (as stated, counterexample): with one successful trial,
`save_results=True` and a persistence layer whose `EvalResult.save()` raises,
`batch_eval` does *not* return its result dictionary: the save exception
propagates out of `batch_eval` (there is no `try`/`except` around
`eval_result.save()` in `src/evals/core.py:223-241`), so the already-computed
statistics are lost from the return value. -/
theorem c4_save_failure_counterexample :
    (batch_eval 1 trialOne saveBoom true [0]).1 = .error "database unavailable" := by
  rfl

/-- C4 (amended): persistence failure is fatal to the return value — for every
batch with at least one successful trial run with `save_results` enabled (and
a truthy model/eval name), if the persistence call raises then `batch_eval`
propagates that error instead of returning its result dictionary; exactly one
save is attempted, and the computed statistics survive only in that attempted
record (its `result`/`runs` fields), not in a returned dictionary. -/
theorem batch_eval_save_failure_propagates (num_runs : Nat) (trial : TrialFn)
    (save : EvalResult → Except String Unit) (order : List Nat) (e : String)
    (hperm : order.Perm (List.range num_runs))
    (hK : failedCount trial num_runs < num_runs)
    (hm : truthy (collect trial order).model_name = true)
    (hn : truthy (collect trial order).eval_name = true)
    (hsave : ∀ r, save r = .error e) :
    ∃ er : EvalResult,
      batch_eval num_runs trial save true order = (.error e, [er]) := by
  have hadd := successScores_length_add trial num_runs
  have hresperm := collect_results_perm trial hperm
  have hne : (collect trial order).results ≠ [] := by
    intro h0
    have h1 := hresperm.length_eq
    rw [h0] at h1
    simp only [List.length_nil] at h1
    omega
  simp only [batch_eval]
  rw [if_neg hne, if_pos (by simp [hm, hn]), hsave]
  exact ⟨_, rfl⟩

/-- C4 witness (for the amended claim): one successful trial, failing save. -/
theorem batch_eval_save_failure_propagates_witness :
    truthy (collect trialOne [0]).model_name = true ∧
    ∃ er : EvalResult,
      batch_eval 1 trialOne saveBoom true [0] = (.error "database unavailable", [er]) :=
  ⟨by decide,
   batch_eval_save_failure_propagates 1 trialOne saveBoom [0] "database unavailable"
     (by decide) (by decide) (by decide) (by decide) (fun _ => rfl)⟩

/-- C5: partial-success statistics — for every batch where some but not all
trials succeed, `batch_eval` returns its dictionary; the statistics (mean,
standard deviation — recorded through its square `std2` —, min, max, median,
success rate) are computed over the successful scores only; and the
low-success-rate warning is emitted exactly when the success rate is below
10% and more than one run was requested, without blocking aggregation. -/
theorem batch_eval_partial_success_stats (num_runs : Nat) (trial : TrialFn)
    (save : EvalResult → Except String Unit) (save_results : Bool) (order : List Nat)
    (hperm : order.Perm (List.range num_runs))
    (hsave : ∀ r, save r = .ok ())
    (h0 : 0 < (successScores trial num_runs).length)
    (hlt : (successScores trial num_runs).length < num_runs) :
    ∃ ret : BatchReturn,
      (batch_eval num_runs trial save save_results order).1 = .ok ret ∧
      ret.statistics.mean = npMean (successScores trial num_runs) ∧
      ret.statistics.std2 = npVar (successScores trial num_runs) ∧
      ret.statistics.min = npMin (successScores trial num_runs) ∧
      ret.statistics.max = npMax (successScores trial num_runs) ∧
      ret.statistics.median = npMedian (successScores trial num_runs) ∧
      ret.statistics.success_rate =
        ((successScores trial num_runs).length : ℚ) / num_runs ∧
      ret.lowSuccessWarning =
        (decide (((successScores trial num_runs).length : ℚ) / num_runs < 1/10) &&
          decide (num_runs > 1)) := by
  have hresperm := collect_results_perm trial hperm
  have hne : (collect trial order).results ≠ [] := by
    intro hz
    have h1 := hresperm.length_eq
    rw [hz] at h1
    simp only [List.length_nil] at h1
    omega
  refine ⟨_, batch_eval_ok num_runs trial save save_results order hsave hne,
    ?_, ?_, ?_, ?_, ?_, ?_, ?_⟩
  · simp only [computeStats, npMean_perm hresperm]
  · simp only [computeStats, npVar_perm hresperm]
  · simp only [computeStats, npMin_perm hresperm]
  · simp only [computeStats, npMax_perm hresperm]
  · simp only [computeStats, npMedian_perm hresperm]
  · simp only [computeStats, hresperm.length_eq]
  · rw [if_pos (show num_runs > 0 by omega), hresperm.length_eq]

/-- C5 witness: eleven trials of which exactly one succeeds — the success
rate 1/11 is below the 10% threshold, so the warning flag is set. -/
theorem batch_eval_partial_success_stats_witness :
    0 < (successScores trialOne 11).length ∧
    ∃ ret : BatchReturn,
      (batch_eval 11 trialOne saveOk true (List.range 11)).1 = .ok ret ∧
      ret.statistics.mean = npMean (successScores trialOne 11) ∧
      ret.statistics.std2 = npVar (successScores trialOne 11) ∧
      ret.statistics.min = npMin (successScores trialOne 11) ∧
      ret.statistics.max = npMax (successScores trialOne 11) ∧
      ret.statistics.median = npMedian (successScores trialOne 11) ∧
      ret.statistics.success_rate = ((successScores trialOne 11).length : ℚ) / 11 ∧
      ret.lowSuccessWarning =
        (decide (((successScores trialOne 11).length : ℚ) / 11 < 1/10) &&
          decide ((11 : Nat) > 1)) :=
  ⟨by decide,
   batch_eval_partial_success_stats 11 trialOne saveOk true (List.range 11)
     (List.Perm.refl _) (fun _ => rfl) (by decide) (by decide)⟩

/-!
## Lemmas about the turn loop
-/

/-- `altRoles` has one role per turn. -/
theorem altRoles_length : ∀ (b : Bool) (n : Nat), (altRoles b n).length = n := by
  intro b n
  induction n generalizing b with
  | zero => rfl
  | succ n ih => simp [altRoles, ih]

/-- The `k`-th role of the alternating sequence is determined by the parity
of `k`. -/
theorem altRoles_getD (d : Role) :
    ∀ (n k : Nat) (b : Bool), k < n →
      (altRoles b n).getD k d =
        if k % 2 = 0 then (if b then Role.user else Role.assistant)
        else (if b then Role.assistant else Role.user) := by
  intro n
  induction n with
  | zero => intro k b hk; omega
  | succ n ih =>
    intro k b hk
    cases k with
    | zero => cases b <;> simp [altRoles]
    | succ k =>
      have hk' : k < n := by omega
      have h2 := ih k (!b) hk'
      rw [show altRoles b (n + 1) =
        (if b then Role.user else Role.assistant) :: altRoles (!b) n from rfl]
      rw [List.getD_cons_succ, h2]
      rcases Nat.mod_two_eq_zero_or_one k with h | h
      · have h1 : (k + 1) % 2 = 1 := by omega
        cases b <;> simp [h, h1]
      · have h1 : (k + 1) % 2 = 0 := by omega
        cases b <;> simp [h, h1]

/-- Unfolding the loop body for a user turn. -/
theorem runFrom_succ_user {σu σa : Type} (L : EvalLoop σu σa) (n : Nat)
    (su : σu) (sa : σa) (ch : List Message) :
    runFrom L (n + 1) true (su, sa) ch =
      if L.user.isDone (L.user.respond su ch).1 then
        (((L.user.respond su ch).1, sa),
          ch ++ [⟨Role.user, (L.user.respond su ch).2⟩], true)
      else
        runFrom L n false ((L.user.respond su ch).1, sa)
          (ch ++ [⟨Role.user, (L.user.respond su ch).2⟩]) := rfl

/-- Unfolding the loop body for an assistant turn. -/
theorem runFrom_succ_assistant {σu σa : Type} (L : EvalLoop σu σa) (n : Nat)
    (su : σu) (sa : σa) (ch : List Message) :
    runFrom L (n + 1) false (su, sa) ch =
      if L.assistant.isDone (L.assistant.respond sa ch).1 then
        ((su, (L.assistant.respond sa ch).1),
          ch ++ [⟨Role.assistant, (L.assistant.respond sa ch).2⟩], true)
      else
        runFrom L n true (su, (L.assistant.respond sa ch).1)
          (ch ++ [⟨Role.assistant, (L.assistant.respond sa ch).2⟩]) := rfl

/-- A run of the loop that never hits the `is_done` early exit appends exactly
one message per remaining turn, with the roles alternating from the current
agent onward. -/
theorem runFrom_no_early {σu σa : Type} (L : EvalLoop σu σa) :
    ∀ (n : Nat) (b : Bool) (s : σu × σa) (ch : List Message),
      (runFrom L n b s ch).2.2 = false →
      (runFrom L n b s ch).2.1.map Message.role = ch.map Message.role ++ altRoles b n := by
  intro n
  induction n with
  | zero =>
    intro b s ch _
    simp [runFrom, altRoles]
  | succ n ih =>
    intro b s ch hearly
    rcases s with ⟨su, sa⟩
    cases b with
    | true =>
      rw [runFrom_succ_user] at hearly ⊢
      cases hd : L.user.isDone (L.user.respond su ch).1 with
      | true =>
        rw [if_pos hd] at hearly
        simp at hearly
      | false =>
        rw [if_neg (by simp [hd])] at hearly ⊢
        rw [ih false _ _ hearly]
        simp [altRoles]
    | false =>
      rw [runFrom_succ_assistant] at hearly ⊢
      cases hd : L.assistant.isDone (L.assistant.respond sa ch).1 with
      | true =>
        rw [if_pos hd] at hearly
        simp at hearly
      | false =>
        rw [if_neg (by simp [hd])] at hearly ⊢
        rw [ih true _ _ hearly]
        simp [altRoles]

/-- Every run of the loop only ever appends to the chat history, and the first
appended message carries the current agent's role (whether or not the run
terminates early). -/
theorem runFrom_append {σu σa : Type} (L : EvalLoop σu σa) :
    ∀ (n : Nat) (b : Bool) (s : σu × σa) (ch : List Message),
      ∃ suffix : List Message,
        (runFrom L n b s ch).2.1 = ch ++ suffix ∧
        (suffix = [] ∨
          (suffix.map Message.role).head? =
            some (if b then Role.user else Role.assistant)) := by
  intro n
  induction n with
  | zero =>
    intro b s ch
    exact ⟨[], by simp [runFrom], Or.inl rfl⟩
  | succ n ih =>
    intro b s ch
    rcases s with ⟨su, sa⟩
    cases b with
    | true =>
      rw [runFrom_succ_user]
      cases hd : L.user.isDone (L.user.respond su ch).1 with
      | true =>
        refine ⟨[⟨Role.user, (L.user.respond su ch).2⟩], ?_, Or.inr (by simp)⟩
        simp
      | false =>
        rw [if_neg (by simp [hd])]
        rcases ih false ((L.user.respond su ch).1, sa)
            (ch ++ [⟨Role.user, (L.user.respond su ch).2⟩]) with ⟨suffix, hs, _⟩
        refine ⟨⟨Role.user, (L.user.respond su ch).2⟩ :: suffix, ?_, Or.inr (by simp)⟩
        rw [hs]
        simp
    | false =>
      rw [runFrom_succ_assistant]
      cases hd : L.assistant.isDone (L.assistant.respond sa ch).1 with
      | true =>
        refine ⟨[⟨Role.assistant, (L.assistant.respond sa ch).2⟩], ?_, Or.inr (by simp)⟩
        simp
      | false =>
        rw [if_neg (by simp [hd])]
        rcases ih true (su, (L.assistant.respond sa ch).1)
            (ch ++ [⟨Role.assistant, (L.assistant.respond sa ch).2⟩]) with ⟨suffix, hs, _⟩
        refine ⟨⟨Role.assistant, (L.assistant.respond sa ch).2⟩ :: suffix, ?_,
          Or.inr (by simp)⟩
        rw [hs]
        simp

/-- C7: turn alternation and transcript bound — for every `Eval.run` of any
task (`evalRun` over any two agents) that does not terminate early through
`is_done`, the transcript has exactly `max_turns` messages (so at most
`max_turns` turns are performed and the length is ≤ `2 * max_turns`), and the
roles of successive messages strictly alternate, starting from the user
agent's role: message `k` carries role `user` for even `k` and `assistant`
for odd `k`. -/
theorem evalRun_turn_alternation {σu σa : Type} (L : EvalLoop σu σa)
    (s0 : σu × σa)
    (hearly : (evalRun L s0).2.2 = false) :
    (evalRun L s0).2.1.length = L.maxTurns ∧
    (evalRun L s0).2.1.length ≤ 2 * L.maxTurns ∧
    ∀ k, k < (evalRun L s0).2.1.length →
      ((evalRun L s0).2.1.map Message.role).getD k Role.system =
        (if k % 2 = 0 then Role.user else Role.assistant) := by
  unfold evalRun at hearly ⊢
  have hmap := runFrom_no_early L L.maxTurns true s0 [] hearly
  simp only [List.map_nil, List.nil_append] at hmap
  have hlen : (runFrom L L.maxTurns true s0 []).2.1.length = L.maxTurns := by
    have h1 := congrArg List.length hmap
    simpa [altRoles_length] using h1
  refine ⟨hlen, by omega, ?_⟩
  intro k hk
  rw [hmap, altRoles_getD Role.system L.maxTurns k true (by omega)]
  simp

/-- C7 witness: a ten-turn run with no early exit has a transcript of exactly
ten alternating messages. -/
theorem evalRun_turn_alternation_witness :
    (evalRun chattyLoop ((), ())).2.2 = false ∧
    (evalRun chattyLoop ((), ())).2.1.length = chattyLoop.maxTurns :=
  ⟨by decide, (evalRun_turn_alternation chattyLoop ((), ()) (by decide)).1⟩

/-- C10 (implicit): the user agent always acts first — in every `Eval.run`
invocation over any pair of agents, any task and any state, whenever the
final transcript is non-empty its first message carries the `user` role; the
assistant agent never produces the first message. -/
theorem evalRun_user_first {σu σa : Type} (L : EvalLoop σu σa) (s0 : σu × σa)
    (hne : (evalRun L s0).2.1 ≠ []) :
    ((evalRun L s0).2.1.map Message.role).head? = some Role.user := by
  unfold evalRun at hne ⊢
  rcases runFrom_append L L.maxTurns true s0 [] with ⟨suffix, hs, hhead⟩
  rw [hs] at hne ⊢
  rcases hhead with rfl | hhead
  · exact absurd rfl hne
  · simpa using hhead

/-- C10 witness: the chatty ten-turn run has a non-empty transcript whose
first message is the user's. -/
theorem evalRun_user_first_witness :
    (evalRun chattyLoop ((), ())).2.1 ≠ [] ∧
    ((evalRun chattyLoop ((), ())).2.1.map Message.role).head? = some Role.user :=
  ⟨by decide, evalRun_user_first chattyLoop ((), ()) (by decide)⟩

/-- C6: determinism given fixed seeds — for every registered eval name
(`"math"`, `"tictactoe_random"` and `"tictactoe_perfect"`, the three
registrations of `math.py:93-100` and `tictactoe.py:204-216`) and fixed task
parameters, two invocations of the factory produced by `create_eval_factory`
with the same seed construct identical `Eval` instances: their random
generators are equal and seeded purely from the trial index passed to the
factory, and — with the chat-completion collaborator replaced by a
deterministic stub (and the opponent move semantics deterministic) — their
turn sequences and final scores are identical. -/
theorem create_eval_factory_deterministic (sem : RngSemantics)
    (nega : TTTGame → Nat) (stub : CompletionStub)
    (model : String) (kwargs : Params) (seed : Nat) :
    FactoryDeterministic sem nega stub "math" model kwargs seed ∧
    FactoryDeterministic sem nega stub "tictactoe_random" model kwargs seed ∧
    FactoryDeterministic sem nega stub "tictactoe_perfect" model kwargs seed :=
  ⟨⟨_, _, rfl, rfl, rfl, rfl, rfl⟩, ⟨_, _, rfl, rfl, rfl, rfl, rfl⟩,
   ⟨_, _, rfl, rfl, rfl, rfl, rfl⟩⟩

/-- Rounding half-to-even fixes every integer. -/
theorem roundHalfEven_intCast (z : ℤ) : roundHalfEven (z : ℚ) = z := by
  norm_num [roundHalfEven, Int.floor_intCast]

/-- `round(x, 2)` fixes every integer. -/
theorem round2_intCast (z : ℤ) : round2 (z : ℚ) = z := by
  have h : ((z : ℚ)) * 100 = ((z * 100 : ℤ) : ℚ) := by push_cast; ring
  rw [round2, h, roundHalfEven_intCast]
  push_cast
  rw [mul_div_assoc]
  norm_num

/-- `evaluate` on a transcript with a known last message. -/
theorem mathEvaluate_concat (u : MathUserS) (pre : List Message) (m : Message) :
    mathEvaluate u (pre ++ [m]) =
      .ok (if (pyFloat (pyStrip m.content)).map roundVal =
          some (.finite (round2 (mathGtRaw u))) then 1 else 0) := by
  unfold mathEvaluate
  rw [List.getLast?_concat]

/-- C8: reproducible math task — for any seed whose generator yields operands
`(123, 456)` and the operator `+`, the posed problem is exactly
`"123 + 456"` with ground truth `579`; `MathEval.evaluate` returns `1.0` when
the last transcript message is `"579"`, and `0.0` when it is `"580"` or any
string that does not parse as a float. -/
theorem math_eval_reproducible (sem : RngSemantics) (seed low high : Nat)
    (hxy : sem.integersPair seed low high = (123, 456))
    (hop : opOfFin (sem.choice4 seed) = Op.plus) :
    (mathUserInit sem seed low high).problem = "123 + 456" ∧
    mathGtRaw (mathUserInit sem seed low high) = 579 ∧
    (∀ pre : List Message,
      mathEvaluate (mathUserInit sem seed low high)
        (pre ++ [⟨Role.assistant, "579"⟩]) = .ok 1) ∧
    (∀ pre : List Message,
      mathEvaluate (mathUserInit sem seed low high)
        (pre ++ [⟨Role.assistant, "580"⟩]) = .ok 0) ∧
    (∀ (pre : List Message) (s : String), pyFloat (pyStrip s) = none →
      mathEvaluate (mathUserInit sem seed low high)
        (pre ++ [⟨Role.assistant, s⟩]) = .ok 0) := by
  have hu : mathUserInit sem seed low high =
      { low := low, high := high, x := 123, y := 456, op := Op.plus
        problem := "123 + 456" } := by
    rw [mathUserInit, hxy, hop]
    rfl
  have hgtz : mathGtRaw (mathUserInit sem seed low high) = ((579 : ℤ) : ℚ) := by
    rw [hu]
    norm_num [mathGtRaw]
  have hgt : round2 (mathGtRaw (mathUserInit sem seed low high)) = 579 := by
    rw [hgtz, round2_intCast]
    norm_num
  have hgtraw : mathGtRaw (mathUserInit sem seed low high) = 579 := by
    rw [hgtz]
    norm_num
  have h579 : pyFloat (pyStrip "579") = some (.finite ((579 : ℕ) : ℚ)) := rfl
  have h580 : pyFloat (pyStrip "580") = some (.finite ((580 : ℕ) : ℚ)) := rfl
  refine ⟨by rw [hu], hgtraw, ?_, ?_, ?_⟩
  · intro pre
    rw [mathEvaluate_concat, h579, hgt]
    have hr : round2 ((579 : ℕ) : ℚ) = 579 := by
      have := round2_intCast 579
      push_cast at this ⊢
      simpa using this
    rw [Option.map_some']
    simp only [roundVal, hr]
    simp
  · intro pre
    rw [mathEvaluate_concat, h580, hgt]
    have hr : round2 ((580 : ℕ) : ℚ) = 580 := by
      have := round2_intCast 580
      push_cast at this ⊢
      simpa using this
    rw [Option.map_some']
    simp only [roundVal, hr]
    norm_num
  · intro pre s hs
    rw [mathEvaluate_concat, hs]
    simp

/-- C8 witness: under `constSem`, the problem is `"123 + 456"`, the reply
`"579"` scores 1, and the replies `"580"` and `"not a number"` score 0. -/
theorem math_eval_reproducible_witness :
    pyFloat (pyStrip "not a number") = none ∧
    (mathUserInit constSem 0 100 1000).problem = "123 + 456" ∧
    mathEvaluate (mathUserInit constSem 0 100 1000) [⟨Role.assistant, "579"⟩] = .ok 1 ∧
    mathEvaluate (mathUserInit constSem 0 100 1000) [⟨Role.assistant, "580"⟩] = .ok 0 ∧
    mathEvaluate (mathUserInit constSem 0 100 1000)
      [⟨Role.assistant, "not a number"⟩] = .ok 0 :=
  ⟨by decide,
   (math_eval_reproducible constSem 0 100 1000 rfl rfl).1,
   by
     have h := (math_eval_reproducible constSem 0 100 1000 rfl rfl).2.2.1 []
     simpa using h,
   by
     have h := (math_eval_reproducible constSem 0 100 1000 rfl rfl).2.2.2.1 []
     simpa using h,
   by
     have h := (math_eval_reproducible constSem 0 100 1000 rfl rfl).2.2.2.2 []
       "not a number" (by decide)
     simpa using h⟩

/-- C9: tic-tac-toe terminal scoring — for every finished game state with a
valid current player and one LLM-controlled slot in `players`,
`TicTacToeEval.evaluate` returns the win value `1.0` when the LLM's mark has
three in a row (and the opponent does not), the loss value `0.0` when the
opponent's mark has three in a row (and the LLM's does not), and the draw
value `0.5` when the board is full with no winner. -/
theorem ttt_evaluate_terminal_scoring (g : TTTGame)
    (hcp : g.current_player = 1 ∨ g.current_player = 2)
    (hp : g.playerIsLLM = [true, false] ∨ g.playerIsLLM = [false, true]) :
    (threeInRow g.board g.llmMark = true → threeInRow g.board g.oppMark = false →
      tttEvaluate g = 1) ∧
    (threeInRow g.board g.oppMark = true → threeInRow g.board g.llmMark = false →
      tttEvaluate g = 0) ∧
    (g.boardFull = true → threeInRow g.board g.llmMark = false →
      threeInRow g.board g.oppMark = false → tttEvaluate g = 1/2) := by
  rcases hcp with hcp | hcp <;> rcases hp with hp | hp <;>
    refine ⟨fun hA hB => ?_, fun hA hB => ?_, fun _ hA hB => ?_⟩ <;>
      simp only [TTTGame.llmMark, TTTGame.oppMark, hp, List.getD_cons_zero,
        if_true, if_false] at hA hB <;>
        norm_num at hA hB <;>
          simp [tttEvaluate, TTTGame.lose, TTTGame.opponentIndex, TTTGame.switchPlayer,
            hcp, hp, hA, hB]

/-- C9 witness: the finished `wonGame` scores the win value `1.0` for the
LLM. -/
theorem ttt_evaluate_terminal_scoring_witness :
    threeInRow wonGame.board wonGame.llmMark = true ∧
    tttEvaluate wonGame = 1 :=
  ⟨by decide,
   (ttt_evaluate_terminal_scoring wonGame (Or.inl rfl) (Or.inl rfl)).1
     (by decide) (by decide)⟩

end LLMEvals
